import Mathlib

/-!
Verification of the reliqua framework's annotation compiler and runtime
parameter resolution engine (`reliqua/middleware.py`, `reliqua/sphinx_parser.py`,
`reliqua/openapi.py`), via a shallow embedding of the Python code.

Python values appearing in request parameter maps are modelled by `Value`;
Python exceptions by `PyErr`; fallible Python code by `Except PyErr`.
Falcon (the host web framework) request accessors used by the middleware
are embedded from Falcon 3/4 `Request` semantics (`get_param`,
`get_param_as_int`, `get_param_as_bool`, `get_param_as_list`).
-/

namespace Reliqua

/-- Python values stored in a request parameter map: `None`, booleans,
integers, strings, lists and dicts (insertion-ordered association lists). -/
inductive Value where
  | none : Value
  | bool (b : Bool) : Value
  | int (n : Int) : Value
  | str (s : String) : Value
  | list (xs : List Value) : Value
  | dict (xs : List (String × Value)) : Value
  deriving Repr

/-- Python truthiness (`bool(value)`): `None`, `False`, `0`, `""`, `[]`, and
an empty dict are falsy; everything else is truthy. -/
def pyTruthy : Value → Bool
  | .none => false
  | .bool b => b
  | .int n => n != 0
  | .str s => s != ""
  | .list xs => !xs.isEmpty
  | .dict xs => !xs.isEmpty

/-- Single-quote character (used by Python `repr` of strings). -/
def sq : Char := Char.ofNat 39

/-- Opening-brace character (used by Python `repr` of dicts). -/
def obr : Char := Char.ofNat 123

/-- Closing-brace character (used by Python `repr` of dicts). -/
def cbr : Char := Char.ofNat 125

mutual
/-- Python `repr(value)`: strings get quoted; escaping of quote characters
inside strings is not reproduced, no claim exercises it. -/
def pyRepr : Value → String
  | .none => "None"
  | .bool b => if b then "True" else "False"
  | .int n => toString n
  | .str s => String.singleton sq ++ s ++ String.singleton sq
  | .list xs => "[" ++ String.intercalate ", " (pyReprList xs) ++ "]"
  | .dict xs =>
      String.singleton obr ++ String.intercalate ", " (pyReprPairs xs) ++ String.singleton cbr

/-- `repr` of each element of a Python list. -/
def pyReprList : List Value → List String
  | [] => []
  | v :: vs => pyRepr v :: pyReprList vs

/-- `repr` of each `key: value` entry of a Python dict. -/
def pyReprPairs : List (String × Value) → List String
  | [] => []
  | (k, v) :: vs =>
      (String.singleton sq ++ k ++ String.singleton sq ++ ": " ++ pyRepr v) :: pyReprPairs vs
end

/-- Python `str(value)`: identity on strings, `repr`-style rendering of
containers, `True`/`False`/`None` for booleans and `None`. -/
def pyStr : Value → String
  | .none => "None"
  | .bool b => if b then "True" else "False"
  | .int n => toString n
  | .str s => s
  | .list xs => pyRepr (.list xs)
  | .dict xs => pyRepr (.dict xs)

/-- Characters treated as whitespace by Python `str.strip()` / `\s`
(ASCII subset; the docstrings and request values involved are ASCII). -/
def isPySpace (c : Char) : Bool :=
  c == ' ' || c == '\t' || c == '\n' || c == '\r'

/-- Python `str.strip()` on a character list. -/
def stripChars (l : List Char) : List Char :=
  ((l.dropWhile isPySpace).reverse.dropWhile isPySpace).reverse

/-- Python `str.strip()`. -/
def pyStrip (s : String) : String :=
  String.mk (stripChars s.data)

/-- Python `str.lower()` (ASCII). -/
def pyLower (s : String) : String :=
  String.mk (s.data.map Char.toLower)

/-- Membership of a string in a list of string literals
(Python `val in ("a", "b", ...)` for a string `val`). -/
def strMem (s : String) (l : List String) : Bool :=
  l.contains s

/-- Does `needle` occur as a contiguous sublist of `hay`? -/
def occursIn (needle : List Char) : List Char → Bool
  | [] => needle.isPrefixOf []
  | c :: rest => needle.isPrefixOf (c :: rest) || occursIn needle rest

/-- Python substring containment `sub in s`. -/
def substrContains (s sub : String) : Bool :=
  occursIn sub.data s.data

/-- Is `v` the string `t`? (Python `v == "t"` where the right side is a
string literal: non-string values never compare equal.) -/
def Value.isStr (v : Value) (t : String) : Bool :=
  match v with
  | .str s => s == t
  | _ => false

/-- Is `v` Python `None`? (Python `v is None`.) -/
def Value.isNone : Value → Bool
  | .none => true
  | _ => false

/-! ### Python dict semantics

Request parameter maps (`request.params`) and the parser's option/parameter
dicts are Python dicts: insertion-ordered maps with unique keys.  They are
embedded as association lists together with the operations the source uses. -/

/-- A Python dict with string keys. -/
abbrev Dict := List (String × Value)

/-- Python `d[k]` / `d.get(k)` lookup (first — and only — matching key). -/
def lookupV : Dict → String → Option Value
  | [], _ => Option.none
  | (k', v) :: t, k => if k' == k then some v else lookupV t k

/-- Python `d.get(k)`: the value, or `None` when the key is absent. -/
def dictGet (d : Dict) (k : String) : Value :=
  (lookupV d k).getD Value.none

/-- Python `k in d`. -/
def containsKey (d : Dict) (k : String) : Bool :=
  (lookupV d k).isSome

/-- Python `d[k] = v`: update in place if the key exists, else append. -/
def setKey : Dict → String → Value → Dict
  | [], k, v => [(k, v)]
  | (k', v') :: t, k, v =>
    if k' == k then (k', v) :: t else (k', v') :: setKey t k v

/-- Python `d.pop(k)` (the removal part; the key is known to be present
at every call site that reaches this). -/
def popKey : Dict → String → Dict
  | [], _ => []
  | (k', v') :: t, k => if k' == k then t else (k', v') :: popKey t k

/-- Python `list(d.keys())`. -/
def keysOf (d : Dict) : List String :=
  d.map Prod.fst

/-! ### `reliqua.middleware.to_bool` -/

/-- The truthy string set of `to_bool`. -/
def truthyStrings : List String := ["true", "yes", "1", "on", "t", "y"]

/-- The falsy string set of `to_bool`. -/
def falsyStrings : List String := ["false", "no", "0", "off", "f", "n", ""]

/-- `reliqua.middleware.to_bool`: permissive conversion of a value to bool.
`val = str(value).strip().lower()`; `val` in the truthy set gives `True`,
in the falsy set gives `False`, otherwise Python truthiness of the value. -/
def to_bool (value : Value) : Bool :=
  let val := pyLower (pyStrip (pyStr value))
  if strMem val truthyStrings then true
  else if strMem val falsyStrings then false
  else pyTruthy value

/-! ### Python exceptions -/

/-- Python / Falcon exceptions raised by the embedded code. -/
inductive PyErr where
  /-- `KeyError` (e.g. `options.pop("in")` with no `in` key, or
  `req.params[name]` with `name` absent); carries the key. -/
  | keyError (k : String) : PyErr
  /-- `IndexError` (e.g. `[][-1]`). -/
  | indexError : PyErr
  /-- `TypeError` (e.g. `isinstance(x, None)` or `int(None)`). -/
  | typeError : PyErr
  /-- `ValueError` (e.g. `int("")`). -/
  | valueError : PyErr
  /-- `falcon.HTTPBadRequest` raised by `_check_required`; carries the
  missing parameter's name. -/
  | badRequest (name : String) : PyErr
  /-- `falcon.HTTPMissingParam`; carries the parameter name. -/
  | missingParam (name : String) : PyErr
  /-- `falcon.HTTPInvalidParam`; carries the parameter name. -/
  | invalidParam (name : String) : PyErr
  /-- Marker for reachable-in-principle code whose behaviour no claim
  exercises and which is deliberately not modelled (float parsing,
  `json.loads`, `dict()` of a non-dict). -/
  | notModelled : PyErr
  deriving Repr

/-! ### Python builtin conversions used as TRANSFORMS -/

/-- Accumulate the value of a run of decimal digits. -/
def digitsValAux : List Char → Nat → Nat
  | [], acc => acc
  | c :: t, acc => digitsValAux t (acc * 10 + (c.toNat - 48))

/-- Python `int(value)`: integers pass through, booleans become 0/1,
strings are stripped and parsed as an optionally signed decimal literal
(`ValueError` otherwise; numeric-literal underscores are not modelled),
`None`/lists/dicts raise `TypeError`. -/
def pyIntE (v : Value) : Except PyErr Value :=
  match v with
  | .int n => .ok (.int n)
  | .bool b => .ok (.int (if b then 1 else 0))
  | .str s =>
    let t := stripChars s.data
    let (sign, ds) : Int × List Char :=
      match t with
      | '-' :: rest => (-1, rest)
      | '+' :: rest => (1, rest)
      | rest => (1, rest)
    if ds.isEmpty || !ds.all Char.isDigit then .error .valueError
    else .ok (.int (sign * Int.ofNat (digitsValAux ds 0)))
  | _ => .error .typeError

/-- Python `list(value)`: a string becomes its list of characters, a list
is copied, a dict gives its keys; `None`/ints/bools raise `TypeError`. -/
def pyListFn (v : Value) : Except PyErr Value :=
  match v with
  | .str s => .ok (.list (s.data.map (fun c => .str (String.singleton c))))
  | .list xs => .ok (.list xs)
  | .dict xs => .ok (.list (xs.map (fun kv => Value.str kv.1)))
  | _ => .error .typeError

/-- The conversion functions of the `TRANSFORMS` table in
`reliqua/middleware.py` (`str`, `float`, `int`, `to_bool`, `json.loads`,
`list`, `dict`). -/
inductive Transform where
  | strT | floatT | intT | boolT | jsonT | listT | dictT
  deriving Repr

/-- `TRANSFORMS.get(name, str)`: the dispatch table of
`reliqua/middleware.py` with `str` as the fallback. -/
def TRANSFORMS_get (name : String) : Transform :=
  match name with
  | "string" => .strT
  | "str" => .strT
  | "number" => .floatT
  | "float" => .floatT
  | "integer" => .intT
  | "int" => .intT
  | "boolean" => .boolT
  | "bool" => .boolT
  | "object" => .jsonT
  | "list" => .listT
  | "array" => .listT
  | "dict" => .dictT
  | _ => .strT

/-- Apply a `TRANSFORMS` function to a value.  `float` and `json.loads`
(and `dict()` of a non-dict) are outside every claim's reach and are not
modelled: applying them yields the explicit `notModelled` error. -/
def applyTransform (t : Transform) (v : Value) : Except PyErr Value :=
  match t with
  | .strT => .ok (.str (pyStr v))
  | .intT => pyIntE v
  | .boolT => .ok (.bool (to_bool v))
  | .listT => pyListFn v
  | .dictT => match v with
      | .dict xs => .ok (.dict xs)
      | _ => .error .notModelled
  | .floatT => .error .notModelled
  | .jsonT => .error .notModelled

/-! ### `python_type` and `isinstance` -/

/-- Python builtin types that a datatype string can name
(`getattr(builtins, s, None)` in `reliqua/middleware.py`). -/
inductive PyType where
  | pstr | pint | pfloat | pbool | plist | pdict | pobject
  /-- Builtin types none of the embedded values inhabit
  (`set`, `tuple`, `bytes`, ...). -/
  | pother
  deriving Repr

/-- `reliqua.middleware.python_type`: `getattr(builtins, s, None)`.
Strings naming a Python builtin type map to it; the OpenAPI type names
`integer`, `number`, `boolean`, `string`, `array` name no builtin and map
to `None`. -/
def python_type (s : String) : Option PyType :=
  match s with
  | "str" => some .pstr
  | "int" => some .pint
  | "float" => some .pfloat
  | "bool" => some .pbool
  | "list" => some .plist
  | "dict" => some .pdict
  | "object" => some .pobject
  | "set" => some .pother
  | "tuple" => some .pother
  | "bytes" => some .pother
  | "bytearray" => some .pother
  | "frozenset" => some .pother
  | "complex" => some .pother
  | "range" => some .pother
  | "type" => some .pother
  | _ => Option.none

/-- Python `isinstance(v, t)`: every value is an instance of `object`;
`bool` is a subclass of `int`. -/
def isinst (v : Value) (t : PyType) : Bool :=
  match t with
  | .pobject => true
  | .pstr => match v with | .str _ => true | _ => false
  | .pint => match v with | .int _ => true | .bool _ => true | _ => false
  | .pbool => match v with | .bool _ => true | _ => false
  | .plist => match v with | .list _ => true | _ => false
  | .pdict => match v with | .dict _ => true | _ => false
  | .pfloat => false
  | .pother => false

/-! ### Falcon `Request` accessors

Embedded from the Falcon 3/4 `Request` implementation, which the
middleware calls through (`req.get_param`, `req.get_param_as_int`,
`req.get_param_as_bool`, `req.get_param_as_list`).  When a key appears
multiple times Falcon stores the values as a list and the scalar accessors
take the last element (`param[-1]`, `IndexError` on an empty list). -/

/-- Python `xs[-1]` on the nonempty list `a :: rest`. -/
def lastOf (a : Value) : List Value → Value
  | [] => a
  | b :: bs => lastOf b bs

/-- Falcon `Request.get_param(name, required=..., default=...)`. -/
def falcon_get_param (params : Dict) (name : String) (default : Value)
    (required : Bool) : Except PyErr Value :=
  match lookupV params name with
  | some v =>
    match v with
    | .list [] => .error .indexError
    | .list (x :: xs) => .ok (lastOf x xs)
    | _ => .ok v
  | Option.none =>
    if !required then .ok default else .error (.missingParam name)

/-- Falcon's `TRUE_STRINGS` for `get_param_as_bool`. -/
def falconTrueStrings : List String := ["true", "True", "yes", "1", "on", "checked"]

/-- Falcon's `FALSE_STRINGS` for `get_param_as_bool`. -/
def falconFalseStrings : List String := ["false", "False", "no", "0", "off", "unchecked"]

/-- Falcon `Request.get_param_as_bool(name, required=..., default=...)`
with the default `blank_as_true=True`: a member of `TRUE_STRINGS` is
`True`, of `FALSE_STRINGS` is `False`, any other falsy value is `True`,
anything else raises `HTTPInvalidParam`. -/
def falcon_get_param_as_bool (params : Dict) (name : String) (default : Value)
    (required : Bool) : Except PyErr Value :=
  match lookupV params name with
  | some v =>
    match v with
    | .list [] => .error .indexError
    | .list (x :: xs) => falconBoolOf (lastOf x xs) name
    | _ => falconBoolOf v name
  | Option.none =>
    if !required then .ok default else .error (.missingParam name)
where
  falconBoolOf (val : Value) (name : String) : Except PyErr Value :=
    if match val with | .str s => strMem s falconTrueStrings | _ => false then
      .ok (.bool true)
    else if match val with | .str s => strMem s falconFalseStrings | _ => false then
      .ok (.bool false)
    else if !pyTruthy val then .ok (.bool true)
    else .error (.invalidParam name)

/-- Falcon `Request.get_param_as_int(name, required=..., default=...)`
(no min/max bounds are passed by the middleware): `int(val)` with
`ValueError` surfacing as `HTTPInvalidParam`. -/
def falcon_get_param_as_int (params : Dict) (name : String) (default : Value)
    (required : Bool) : Except PyErr Value :=
  match lookupV params name with
  | some v =>
    let valE : Except PyErr Value :=
      match v with
      | .list [] => .error .indexError
      | .list (x :: xs) => pyIntE (lastOf x xs)
      | _ => pyIntE v
    match valE with
    | .error .valueError => .error (.invalidParam name)
    | r => r
  | Option.none =>
    if !required then .ok default else .error (.missingParam name)

/-- Apply a transform to every list item (Falcon's
`[transform(i) for i in items]` with `ValueError` surfacing as
`HTTPInvalidParam`; other exceptions propagate). -/
def transformItems (t : Transform) (name : String) :
    List Value → Except PyErr (List Value)
  | [] => .ok []
  | v :: vs =>
    match applyTransform t v with
    | .error .valueError => .error (.invalidParam name)
    | .error e => .error e
    | .ok v' =>
      match transformItems t name vs with
      | .error e => .error e
      | .ok vs' => .ok (v' :: vs')

/-- Falcon `Request.get_param_as_list(name, transform=..., required=...,
default=...)`: a present non-list value is wrapped in a singleton list;
the transform (when given) is applied to every item. -/
def falcon_get_param_as_list (params : Dict) (name : String) (default : Value)
    (required : Bool) (transform : Option Transform) : Except PyErr Value :=
  match lookupV params name with
  | some v =>
    let items := match v with | .list xs => xs | other => [other]
    match transform with
    | Option.none => .ok (.list items)
    | some t =>
      match transformItems t name items with
      | .error e => .error e
      | .ok items' => .ok (.list items')
  | Option.none =>
    if !required then .ok default else .error (.missingParam name)

/-! ### `reliqua.middleware`: `Parameter`, `Converter`, `ProcessParams` -/

/-- The mutable request state the middleware works on: the merged
parameter map `request.params`. -/
structure Req where
  params : Dict
  deriving Repr

/-- `reliqua.middleware.Parameter`: a parameter descriptor built from the
parsed docstring dict (`Parameter(**kwargs)` with defaults
`default = None`, `required = False`).  `required`, `default` and
`location` hold whatever Python value the dict supplied; `name` and
`datatype` are always strings in practice. -/
structure Parameter where
  name : String
  datatype : String
  required : Value := .bool false
  default : Value := .none
  location : Value := .none
  deriving Repr

/-- Is `c` one of the quote characters stripped by
`value.strip("'"")` in `Converter.as_list`? -/
def isQuoteChar (c : Char) : Bool :=
  c == sq || c == '"'

/-- Python `s.strip("'"")`: strip quote characters from both ends. -/
def stripQuotes (l : List Char) : List Char :=
  ((l.dropWhile isQuoteChar).reverse.dropWhile isQuoteChar).reverse

/-- Prepend a character to the first chunk of a split. -/
def consHead (x : Char) : List (List Char) → List (List Char)
  | [] => [[x]]
  | h :: t => (x :: h) :: t

/-- Python `s.split(c)` for a single-character separator
(`""` splits to `[""]`, separators at the ends produce empty chunks). -/
def splitOnChar (c : Char) : List Char → List (List Char)
  | [] => [[]]
  | x :: xs => if x == c then [] :: splitOnChar c xs else consHead x (splitOnChar c xs)

/-- `Converter.as_str`: `req.get_param(name, default=default, required=required)`. -/
def as_str (params : Dict) (name : String) (default : Value) (required : Bool) :
    Except PyErr Value :=
  falcon_get_param params name default required

/-- `Converter.as_int`: `default = int(default) if default else None`, then
`req.get_param_as_int(name, default=default, required=required)`. -/
def as_int (params : Dict) (name : String) (default : Value) (required : Bool) :
    Except PyErr Value :=
  match (if pyTruthy default then pyIntE default else .ok .none) with
  | .error e => .error e
  | .ok d => falcon_get_param_as_int params name d required

/-- `Converter.as_bool`: `req.get_param_as_bool(name, default=default,
required=required)`. -/
def as_bool (params : Dict) (name : String) (default : Value) (required : Bool) :
    Except PyErr Value :=
  falcon_get_param_as_bool params name default required

/-- `Converter.as_object`: returns `req.params[name]` when it is already a
dict (`KeyError` when the name is absent); the `req.get_param_as_json`
fallback is not modelled — `Converter.convert` returns at its
`isinstance` check for the `object` datatype, so this converter is
unreachable from `convert`. -/
def as_object (params : Dict) (name : String) (_default : Value)
    (_required : Bool) : Except PyErr Value :=
  match lookupV params name with
  | Option.none => .error (.keyError name)
  | some v =>
    match v with
    | .dict _ => .ok v
    | _ => .error .notModelled

/-- `Converter.as_list`: when `req.params[name]` is a nonempty string it is
split on commas (after stripping surrounding quote characters) and each
element is whitespace-stripped, writing the resulting list back into
`req.params`; then `req.get_param_as_list` runs with the transform, and
finally elements equal to `""` are filtered out.  The direct
`req.params[name]` access raises `KeyError` when the name is absent. -/
def as_list (req : Req) (name : String) (default : Value) (required : Bool)
    (transform : Option Transform) : Except PyErr (Req × Value) :=
  match lookupV req.params name with
  | Option.none => .error (.keyError name)
  | some v0 =>
    let req1 : Req :=
      match v0 with
      | .str s =>
        if s != "" then
          { params := setKey req.params name
              (.list (((splitOnChar ',' (stripQuotes s.data)).map
                (fun chunk => Value.str (pyStrip (String.mk chunk)))))) }
        else req
      | _ => req
    match falcon_get_param_as_list req1.params name default required transform with
    | .error e => .error e
    | .ok items =>
      match items with
      | .list xs =>
        .ok (req1, .list (xs.filter (fun item =>
          !(match item with | .str s => s == "" | _ => false))))
      | _ =>
        -- iterating a non-list; unreachable: the name is present, so
        -- Falcon returned a list
        .error .notModelled

/-- `Converter.convert`: fetch the raw value (required-checking via
Falcon, `IndexError` recovered as `[]`), short-circuit when the value is
already an instance of the Python builtin named by the datatype
(`TypeError` when the datatype names no builtin), else dispatch to the
`as_<datatype>` converter (falling back to `as_str`) with the
`TRANSFORMS` function and a transformed default. -/
def convert (req : Req) (p : Parameter) (transformName : Option String) :
    Except PyErr (Req × Value) :=
  let tname := transformName.getD p.datatype
  let valueE : Except PyErr Value :=
    match falcon_get_param req.params p.name .none (pyTruthy p.required) with
    | .error .indexError => .ok (.list [])
    | r => r
  match valueE with
  | .error e => .error e
  | .ok value =>
    match python_type p.datatype with
    | Option.none => .error .typeError
    | some ty =>
      if isinst value ty then .ok (req, value)
      else
        let tr := TRANSFORMS_get tname
        match (if pyTruthy p.default then applyTransform tr p.default else .ok .none) with
        | .error e => .error e
        | .ok dflt =>
          let required := pyTruthy p.required
          match p.datatype with
          | "float" => .error .notModelled
          | "int" => (as_int req.params p.name dflt required).map (fun v => (req, v))
          | "bool" => (as_bool req.params p.name dflt required).map (fun v => (req, v))
          | "object" => (as_object req.params p.name dflt required).map (fun v => (req, v))
          | "list" => as_list req p.name dflt required (some tr)
          | "array" => as_list req p.name dflt required (some tr)
          | _ => (as_str req.params p.name dflt required).map (fun v => (req, v))

/-- Locate the first occurrence of `"__"` in a character list, returning
the parts before and after it. -/
def findSplit : List Char → Option (List Char × List Char)
  | [] => Option.none
  | c :: rest =>
    if c = '_' ∧ rest.head? = some '_' then some ([], rest.tail)
    else
      match findSplit rest with
      | some (a, b) => some (c :: a, b)
      | Option.none => Option.none

/-- Python `s.partition("__")` restricted to the two fields the middleware
uses: the part before the first `"__"` and the part after it (the whole
string and `""` when there is no occurrence). -/
def pypartition (s : String) : String × String :=
  match findSplit s.data with
  | some (a, b) => (String.mk a, String.mk b)
  | Option.none => (s, "")

/-- `ProcessParams._check_required`: `value` is the default unless the
default is `None`, in which case it is `request.params.get(name)`; a
truthy `required` together with `value is None` raises
`falcon.HTTPBadRequest` naming the parameter. -/
def check_required (params : Dict) (p : Parameter) : Except PyErr Unit :=
  let value := if !p.default.isNone then p.default else dictGet params p.name
  if pyTruthy p.required && value.isNone then .error (.badRequest p.name)
  else .ok ()

/-- The loop body of `ProcessParams._parse_operators`, iterating over a
snapshot of the keys: each key containing `"__"` is popped and its value
re-stored under the base name, and the suffix is recorded in the
`operators` dict. -/
def parseOperatorsGo (ops : List (String × String)) (params : Dict) :
    List String → List (String × String) × Dict
  | [] => (ops, params)
  | k :: ks =>
    let (name, operator) := pypartition k
    if operator != "" then
      let v := dictGet params k
      parseOperatorsGo (insertKV ops name operator) (setKey (popKey params k) name v) ks
    else
      parseOperatorsGo ops params ks
where
  /-- `operators[name] = operator` (Python dict assignment on the
  string-valued operators dict). -/
  insertKV : List (String × String) → String → String → List (String × String)
    | [], k, v => [(k, v)]
    | (k', v') :: t, k, v =>
      if k' == k then (k', v) :: t else (k', v') :: insertKV t k v

/-- `ProcessParams._parse_operators`: scan `list(request.params.keys())`
for `name__operator` keys. -/
def parse_operators (req : Req) : List (String × String) × Req :=
  let (ops, params) := parseOperatorsGo [] req.params (keysOf req.params)
  (ops, { params })

/-- `operators.get(name)` on the operators dict. -/
def opsGet : List (String × String) → String → Option String
  | [], _ => Option.none
  | (k, v) :: t, name => if k == name then some v else opsGet t name

/-- `\w`: ASCII word character. -/
def isWordChar (c : Char) : Bool :=
  c.isAlphanum || c == '_'

/-- Try to match `list[(\w+)]` at the head of a character list. -/
def tryListAt (l : List Char) : Option String :=
  match l with
  | 'l' :: 'i' :: 's' :: 't' :: '[' :: rest =>
    let (w, rest') := rest.span isWordChar
    if !w.isEmpty && (match rest' with | ']' :: _ => true | _ => false) then
      some (String.mk w)
    else Option.none
  | _ => Option.none

/-- `re.search(r"list\[(\w+)]", s)`: the leftmost occurrence of
`list[<word>]`, returning the captured element-type name. -/
def listElemSearch : List Char → Option String
  | [] => Option.none
  | c :: rest =>
    match tryListAt (c :: rest) with
    | some w => some w
    | Option.none => listElemSearch rest

/-- The datatype after the operator adjustment in `ProcessParams.process`:
for the `in` and `between` operators the datatype is forced to `"list"`
unless it already contains `"list"` as a substring. -/
def datatypeAfterOps (ops : List (String × String)) (p : Parameter) : String :=
  if opsGet ops p.name == some "in" || opsGet ops p.name == some "between" then
    if substrContains p.datatype "list" then p.datatype else "list"
  else p.datatype

/-- The per-parameter body of the `ProcessParams.process` loop. -/
def processLoop (req : Req) (ops : List (String × String)) :
    List Parameter → Except PyErr Req
  | [] => .ok req
  | p :: rest =>
    let present := containsKey req.params p.name
    match check_required req.params p with
    | .error e => .error e
    | .ok _ =>
      if !present && !pyTruthy p.default then processLoop req ops rest
      else
        let dt1 := datatypeAfterOps ops p
        let (dt2, tr) :=
          match listElemSearch dt1.data with
          | some t => ("list", some t)
          | Option.none => (dt1, (Option.none : Option String))
        match convert req { p with datatype := dt2 } tr with
        | .error e => .error e
        | .ok (req', v) => processLoop { params := setKey req'.params p.name v } ops rest

/-- `ProcessParams.process`: extract operators, store the operators dict in
the parameter map under `"operators"` when any were found, then validate
and convert every declared parameter. -/
def process (req : Req) (parameters : List Parameter) : Except PyErr Req :=
  let (ops, req1) := parse_operators req
  let req2 : Req :=
    if !ops.isEmpty then
      { params := setKey req1.params "operators" (.dict (ops.map (fun kv => (kv.1, Value.str kv.2)))) }
    else req1
  processLoop req2 ops parameters

/-! ### `reliqua.sphinx_parser.SphinxParser` -/

/-- State of the left-to-right scan for `KEYVALUE_REGEX`
(`(?P<key>\w+)=(?P<value>\w+)`) matches.  Accumulators are reversed. -/
inductive KVState where
  | seeking : KVState
  | inKey (acc : List Char) : KVState
  | afterEq (key : List Char) : KVState
  | inVal (key : List Char) (acc : List Char) : KVState

/-- Emit the pending match at end of input. -/
def kvFlush : KVState → List (String × String)
  | .inVal key acc => [(String.mk key.reverse, String.mk acc.reverse)]
  | _ => []

/-- One-pass scan equivalent to `KEYVALUE_REGEX.finditer`: a key is a
maximal word-character run immediately followed by `=` and a nonempty
word-character value run; matches do not overlap and are found left to
right. -/
def scanKVAux : List Char → KVState → List (String × String)
  | [], st => kvFlush st
  | c :: rest, st =>
    match st with
    | .seeking =>
      if isWordChar c then scanKVAux rest (.inKey [c]) else scanKVAux rest .seeking
    | .inKey acc =>
      if isWordChar c then scanKVAux rest (.inKey (c :: acc))
      else if c == '=' then scanKVAux rest (.afterEq acc)
      else scanKVAux rest .seeking
    | .afterEq key =>
      if isWordChar c then scanKVAux rest (.inVal key [c])
      else scanKVAux rest .seeking
    | .inVal key acc =>
      if isWordChar c then scanKVAux rest (.inVal key (c :: acc))
      else (String.mk key.reverse, String.mk acc.reverse) :: scanKVAux rest .seeking

/-- `KEYVALUE_REGEX.finditer(string)`: all `key=value` matches in order. -/
def scanKV (s : String) : List (String × String) :=
  scanKVAux s.data .seeking

/-- `SphinxParser.parse_options`: build the options dict with its defaults,
store every `key=value` match verbatim, rename `in` to `location` via
`options.pop("in")` — which raises `KeyError` when no `in=` pair was
given — and overwrite `required` with the substring test
`"required" in string and "optional" not in string`. -/
def parse_options (string : String) : Except PyErr Dict :=
  let options : Dict :=
    [("location", .str "query"), ("enum", .list []), ("required", .bool false),
     ("default", .none), ("min", .none), ("max", .none)]
  let d1 := (scanKV string).foldl (fun acc kv => setKey acc kv.1 (.str kv.2)) options
  match lookupV d1 "in" with
  | Option.none => .error (.keyError "in")
  | some loc =>
    let d2 := setKey (popKey d1 "in") "location" loc
    .ok (setKey d2 "required"
      (.bool (substrContains string "required" && !substrContains string "optional")))

/-- The named groups of a `PARAM_REGEX` match. -/
structure ParamGroups where
  datatype : String
  name : String
  options : Option String
  description : String
  deriving Repr

/-- `[\[\]|\w]`: the datatype character class of `PARAM_REGEX`. -/
def isDatatypeChar (c : Char) : Bool :=
  isWordChar c || c == '[' || c == ']' || c == '|'

/-- Split the text after the opening `[` of the options group at the
rightmost `]` that is followed by at least one whitespace character
(the greedy `(\[(?P<options>.*)\])?\s+` of `PARAM_REGEX`), returning the
bracket content and the description (text after the whitespace run). -/
def bracketSplit : List Char → Option (List Char × List Char)
  | [] => Option.none
  | c :: rest =>
    match bracketSplit rest with
    | some (o, d) => some (c :: o, d)
    | Option.none =>
      if c == ']' then
        match rest with
        | w :: _ => if isPySpace w then some ([], rest.dropWhile isPySpace) else Option.none
        | [] => Option.none
      else Option.none

/-- Match `PARAM_REGEX` anchored at the head of `l`:
`:param\s+(datatype)\s+(name):\s+(\[(options)\])?\s+(description)` where
the name is a nonspace run whose final character is the `:` (the only
split the surrounding `\s+` admits), and — when no options group
matches — the two `\s+` between the `:` and the description require at
least two whitespace characters. -/
def tryMatchAt (l : List Char) : Option ParamGroups :=
  if [':', 'p', 'a', 'r', 'a', 'm'].isPrefixOf l then
    let l0 := l.drop 6
    let (ws1, l1) := l0.span isPySpace
    if ws1.isEmpty then Option.none else
    let (dt, l2) := l1.span isDatatypeChar
    if dt.isEmpty then Option.none else
    let (ws2, l3) := l2.span isPySpace
    if ws2.isEmpty then Option.none else
    let (nrun, l4) := l3.span (fun c => !isPySpace c)
    match nrun.reverse with
    | ':' :: nameRev =>
      if nameRev.isEmpty then Option.none else
      let name := nameRev.reverse
      let (ws3, l5) := l4.span isPySpace
      if ws3.isEmpty then Option.none else
      let fallback : Option ParamGroups :=
        if ws3.length ≥ 2 then
          some ⟨String.mk dt, String.mk name, Option.none, String.mk l5⟩
        else Option.none
      match l5 with
      | '[' :: rest =>
        match bracketSplit rest with
        | some (o, d) =>
          some ⟨String.mk dt, String.mk name, some (String.mk o), String.mk d⟩
        | Option.none => fallback
      | _ => fallback
    | _ => Option.none
  else Option.none

/-- `PARAM_REGEX.search`: leftmost match of the parameter pattern. -/
def paramRegexSearch : List Char → Option ParamGroups
  | [] => Option.none
  | c :: rest =>
    match tryMatchAt (c :: rest) with
    | some g => some g
    | Option.none => paramRegexSearch rest

/-- `SphinxParser.parse_parameter`: run `PARAM_REGEX.search` (no match
gives Python `None`, modelled as `.ok Option.none`); a truthy options
group is parsed by `parse_options` — whose `KeyError` propagates — and
merged into the group dict; a falsy `required` is normalised to `False`
and the description is stripped. -/
def parse_parameter (string : String) : Except PyErr (Option Dict) :=
  match paramRegexSearch string.data with
  | Option.none => .ok Option.none
  | some g =>
    let base : Dict :=
      [("datatype", .str g.datatype), ("name", .str g.name),
       ("description", .str g.description)]
    let optionsE : Except PyErr (Option Dict) :=
      match g.options with
      | some o => if o != "" then (parse_options o).map some else .ok Option.none
      | Option.none => .ok Option.none
    match optionsE with
    | .error e => .error e
    | .ok od =>
      let d1 := match od with
        | some optd => optd.foldl (fun acc kv => setKey acc kv.1 kv.2) base
        | Option.none => base
      let d2 :=
        if !pyTruthy (dictGet d1 "required") then setKey d1 "required" (.bool false)
        else d1
      .ok (some (setKey d2 "description"
        (.str (pyStrip (valueAsString (dictGet d2 "description"))))))
where
  /-- Read a value known to be a string (group values always are). -/
  valueAsString : Value → String
    | .str s => s
    | v => pyStr v

/-! ### Runtime descriptor construction and `reliqua.openapi.Parameter` -/

/-- `ProcessParams.get_resource_parameters` builds the runtime descriptors
as `Parameter(**x)` directly from the parsed docstring dicts stored in
`resource.__data__`. -/
def mkRuntimeParameter (d : Dict) : Parameter :=
  { name := parse_parameter.valueAsString (dictGet d "name"),
    datatype := parse_parameter.valueAsString (dictGet d "datatype"),
    required := (lookupV d "required").getD (.bool false),
    default := (lookupV d "default").getD .none,
    location := (lookupV d "location").getD .none }

/-- The fields of `reliqua.openapi.Parameter` the claims concern. -/
structure OpenApiParameter where
  name : Value
  datatype : Value
  location : Value
  required : Value
  default : Value
  deriving Repr

/-- `reliqua.openapi.Parameter.__init__` (the location/required logic):
`self.location = location or "query"`, `self.required = required`, and
then `required` is forced to `True` when the location is `"path"`. -/
def openapi_parameter_init (name datatype location required default : Value) :
    OpenApiParameter :=
  let loc := if pyTruthy location then location else .str "query"
  { name, datatype, location := loc,
    required := if loc.isStr "path" then .bool true else required,
    default }

/-! ### Helper lemmas -/

theorem Value.isNone_iff (v : Value) : v.isNone = true ↔ v = .none := by
  cases v <;> simp [Value.isNone]

theorem lookupV_setKey_self (d : Dict) (k : String) (v : Value) :
    lookupV (setKey d k v) k = some v := by
  induction d with
  | nil => simp [setKey, lookupV]
  | cons h t ih =>
    obtain ⟨k', v'⟩ := h
    by_cases hk : k' == k
    · simp [setKey, hk, lookupV]
    · simp only [setKey, lookupV, hk, Bool.false_eq_true, if_false, if_neg]
      exact ih

/-- A list with no occurrence of `"__"` — even after appending one more
underscore — makes `findSplit` fail. -/
theorem findSplit_noDD (l : List Char)
    (h : occursIn ['_', '_'] (l ++ ['_']) = false) : findSplit l = Option.none := by
  induction l with
  | nil => rfl
  | cons c l' ih =>
    rw [List.cons_append, occursIn, Bool.or_eq_false_iff] at h
    obtain ⟨h1, h2⟩ := h
    have hcond : ¬(c = '_' ∧ l'.head? = some '_') := by
      rintro ⟨hc, hh⟩
      cases l' with
      | nil => simp at hh
      | cons a t =>
        simp only [List.head?] at hh
        injection hh with ha
        subst hc
        subst ha
        simp [List.isPrefixOf] at h1
    rw [findSplit, if_neg hcond, ih h2]

/-- `findSplit` locates the `"__"` appended after a clean prefix. -/
theorem findSplit_append (l r : List Char)
    (h : occursIn ['_', '_'] (l ++ ['_']) = false) :
    findSplit (l ++ '_' :: '_' :: r) = some (l, r) := by
  induction l with
  | nil => simp [findSplit]
  | cons c l' ih =>
    rw [List.cons_append, occursIn, Bool.or_eq_false_iff] at h
    obtain ⟨h1, h2⟩ := h
    have hcond : ¬(c = '_' ∧ (l' ++ '_' :: '_' :: r).head? = some '_') := by
      rintro ⟨hc, hh⟩
      subst hc
      cases l' with
      | nil => simp [List.isPrefixOf] at h1
      | cons a t =>
        simp only [List.cons_append, List.head?] at hh
        injection hh with ha
        subst ha
        simp [List.isPrefixOf] at h1
    rw [List.cons_append, findSplit, if_neg hcond, ih h2]

/-- `s.partition("__")` on a key with no `"__"` yields an empty operator. -/
theorem pypartition_noDD (n : String)
    (h : occursIn ['_', '_'] (n.data ++ ['_']) = false) :
    pypartition n = (n, "") := by
  unfold pypartition
  rw [findSplit_noDD n.data h]

/-- `s.partition("__")` on `n ++ "__" ++ rest` with a clean base name
splits exactly at the appended `"__"`. -/
theorem pypartition_append (n rest : String)
    (h : occursIn ['_', '_'] (n.data ++ ['_']) = false) :
    pypartition (n ++ "__" ++ rest) = (n, rest) := by
  unfold pypartition
  have hdata : (n ++ "__" ++ rest).data = n.data ++ '_' :: '_' :: rest.data := by
    show (n.data ++ ('_' :: '_' :: [])) ++ rest.data = n.data ++ '_' :: '_' :: rest.data
    simp
  rw [hdata, findSplit_append _ _ h]

/-! ### Claim theorems -/

/-- **C1**: the runtime required check (`ProcessParams._check_required`)
raises the missing-parameter error exactly when the parameter is required,
its default is `None`, and looking the key up in the merged request
parameter map yields `None`; a present value of `0`, `False`, `""`, `[]`
or an empty dict never triggers the error. -/
theorem check_required_missing_iff (params : Dict) (p : Parameter) :
    (check_required params p = .error (.badRequest p.name) ↔
      pyTruthy p.required = true ∧ p.default = .none ∧ dictGet params p.name = .none) ∧
    (∀ v, (v = Value.int 0 ∨ v = Value.bool false ∨ v = Value.str "" ∨
        v = Value.list [] ∨ v = Value.dict []) →
      lookupV params p.name = some v → check_required params p = .ok ()) := by
  constructor
  · unfold check_required
    cases hd : p.default with
    | none =>
      simp only [Value.isNone, Bool.not_true, Bool.false_eq_true, if_false]
      cases hr : pyTruthy p.required with
      | false => simp
      | true =>
        cases hg : dictGet params p.name <;>
          simp_all [Value.isNone]
    | bool b => cases b <;> simp [Value.isNone]
    | int n => simp [Value.isNone]
    | str s => simp [Value.isNone]
    | list xs => simp [Value.isNone]
    | dict xs => simp [Value.isNone]
  · intro v hv hlook
    unfold check_required
    have hval : dictGet params p.name = v := by simp [dictGet, hlook]
    rcases hv with h | h | h | h | h <;> subst h <;>
      cases hd : p.default <;> simp_all [Value.isNone]

/-- Witness for `check_required_missing_iff`: with an empty map a required
parameter named `a` (no default) raises `HTTPBadRequest`, while a present
value `0` passes the check. -/
theorem check_required_missing_iff_witness :
    check_required [] { name := "a", datatype := "str", required := .bool true } =
      .error (.badRequest "a") ∧
    check_required [("a", .int 0)] { name := "a", datatype := "str", required := .bool true } =
      .ok () := by
  constructor
  · exact (check_required_missing_iff []
      { name := "a", datatype := "str", required := .bool true }).1.mpr ⟨rfl, rfl, rfl⟩
  · exact (check_required_missing_iff [("a", .int 0)]
      { name := "a", datatype := "str", required := .bool true }).2
      (.int 0) (Or.inl rfl) rfl

/-- **C2**: contrary to the claim, compilation is not exception-free: a
`param` line whose option bracket contains no `in=` pair (here the
legitimate option token `required`) makes `SphinxParser.parse_options`
raise `KeyError` from `options.pop("in")`, aborting
`SphinxParser.parse_parameter`.  The repo's own tests
(`test_parse_query_default`, `test_parse_enum`, ...) expect these inputs
to compile, so this is a bug in the code. -/
theorem parse_parameter_keyerror_on_options_without_in :
    parse_parameter ":param str tag: [required]  A tag" = .error (.keyError "in") ∧
    parse_options "required" = .error (.keyError "in") ∧
    parse_options "" = .error (.keyError "in") := ⟨rfl, rfl, rfl⟩

/-- **C3**: contrary to the claim (and to the spec's end-to-end scenario
B), a `list[int]` parameter given the comma-separated string `"1,2,,3"`
does not resolve to `[1,2,3]`: `Converter.as_list` filters out empty
strings only *after* Falcon's `get_param_as_list` has applied the `int`
transform to every element, and `int("")` raises `ValueError`, surfacing
as `HTTPInvalidParam`.  Without an empty element the same pipeline does
resolve to the coerced list, confirming the filter runs too late. -/
theorem process_list_int_empty_element_error :
    process ⟨[("ids", .str "1,2,,3")]⟩ [{ name := "ids", datatype := "list[int]" }] =
      .error (.invalidParam "ids") ∧
    process ⟨[("ids", .str "1,2,3")]⟩ [{ name := "ids", datatype := "list[int]" }] =
      .ok ⟨[("ids", .list [.int 1, .int 2, .int 3])]⟩ := ⟨rfl, rfl⟩

/-- **C6**: whenever `SphinxParser.parse_options` returns a descriptor
dict, its `required` entry is `True` exactly when the option string
contains `"required"` and does not contain `"optional"` (Python's `in`
substring test). -/
theorem parse_options_required_flag (s : String) (d : Dict)
    (h : parse_options s = .ok d) :
    lookupV d "required" =
      some (.bool (substrContains s "required" && !substrContains s "optional")) := by
  unfold parse_options at h
  dsimp only at h
  split at h
  · simp at h
  · injection h with h'
    subst h'
    exact lookupV_setKey_self _ _ _

/-- Witness for `parse_options_required_flag`: the option string
`"in=query required"` compiles to a dict whose `required` entry is `True`. -/
theorem parse_options_required_flag_witness :
    lookupV [("location", Value.str "query"), ("enum", Value.list []),
      ("required", Value.bool true), ("default", Value.none),
      ("min", Value.none), ("max", Value.none)] "required" =
      some (Value.bool true) :=
  (parse_options_required_flag "in=query required" _ rfl).trans
    (congrArg (fun b => some (Value.bool b)) (by decide))

/-- **C5** (counterexample): the descriptor consulted by the runtime
required check is the parser's dict, where `required` is *not* forced for
path parameters: the annotation `:param int id: [in=path] User ID`
compiles to a dict with location `path` and `required = False`, the
runtime `Parameter` built from it is not required, and
`_check_required` does not raise even when `id` is absent. -/
theorem path_parameter_not_required_at_runtime :
    parse_parameter ":param int id: [in=path] User ID" =
      .ok (some [("datatype", Value.str "int"), ("name", Value.str "id"),
        ("description", Value.str "User ID"), ("location", Value.str "path"),
        ("enum", Value.list []), ("required", Value.bool false),
        ("default", Value.none), ("min", Value.none), ("max", Value.none)]) ∧
    (mkRuntimeParameter [("datatype", Value.str "int"), ("name", Value.str "id"),
        ("description", Value.str "User ID"), ("location", Value.str "path"),
        ("enum", Value.list []), ("required", Value.bool false),
        ("default", Value.none), ("min", Value.none), ("max", Value.none)]).location =
      Value.str "path" ∧
    (mkRuntimeParameter [("datatype", Value.str "int"), ("name", Value.str "id"),
        ("description", Value.str "User ID"), ("location", Value.str "path"),
        ("enum", Value.list []), ("required", Value.bool false),
        ("default", Value.none), ("min", Value.none), ("max", Value.none)]).required =
      Value.bool false ∧
    check_required [] (mkRuntimeParameter [("datatype", Value.str "int"),
        ("name", Value.str "id"), ("description", Value.str "User ID"),
        ("location", Value.str "path"), ("enum", Value.list []),
        ("required", Value.bool false), ("default", Value.none),
        ("min", Value.none), ("max", Value.none)]) = .ok () :=
  ⟨rfl, rfl, rfl, rfl⟩

/-- **C5** (amended): the OpenAPI document descriptor
(`reliqua.openapi.Parameter`) does force `required = True` whenever its
location is `path`, regardless of the annotation's tokens; but the
descriptor consulted by the runtime required check comes from
`parse_options`, whose `required` entry is solely the
`required`/`optional` token test, independent of the `path` location. -/
theorem openapi_path_forcing_vs_runtime_descriptor :
    (∀ name datatype location required default,
      (openapi_parameter_init name datatype location required default).location =
        .str "path" →
      (openapi_parameter_init name datatype location required default).required =
        .bool true) ∧
    (∀ s d, parse_options s = .ok d →
      lookupV d "location" = some (.str "path") →
      lookupV d "required" =
        some (.bool (substrContains s "required" && !substrContains s "optional"))) := by
  constructor
  · intro name datatype location required default h
    unfold openapi_parameter_init at h ⊢
    simp only at h ⊢
    rw [h]
    simp [Value.isStr]
  · intro s d h _
    exact parse_options_required_flag s d h

/-- Witness for `openapi_path_forcing_vs_runtime_descriptor`: a concrete
path-located OpenAPI parameter is forced required, while the parsed
descriptor for the option string `"in=path"` keeps `required = False`. -/
theorem openapi_path_forcing_vs_runtime_descriptor_witness :
    (openapi_parameter_init (.str "id") (.str "int") (.str "path") (.bool false)
      .none).required = Value.bool true ∧
    lookupV [("location", Value.str "path"), ("enum", Value.list []),
      ("required", Value.bool false), ("default", Value.none),
      ("min", Value.none), ("max", Value.none)] "required" =
      some (Value.bool false) := by
  constructor
  · exact openapi_path_forcing_vs_runtime_descriptor.1 _ _ _ _ _ rfl
  · exact (openapi_path_forcing_vs_runtime_descriptor.2 "in=path" _ rfl rfl).trans
      (congrArg (fun b => some (Value.bool b)) (by decide))

/-- **C7** (counterexample): `to_bool` is *not* the recognizer applied to
parameters declared `bool` at request time: for the raw value `"t"`,
`to_bool` yields `True` but `Converter.convert` raises `HTTPInvalidParam`
(Falcon's strict `get_param_as_bool` does the conversion); for the raw
value `""`, `to_bool` yields `False` but request-time conversion yields
`True` (Falcon's `blank_as_true`). -/
theorem bool_param_not_converted_by_to_bool :
    to_bool (.str "t") = true ∧
    convert ⟨[("active", .str "t")]⟩ { name := "active", datatype := "bool" }
      Option.none = .error (.invalidParam "active") ∧
    to_bool (.str "") = false ∧
    convert ⟨[("active", .str "")]⟩ { name := "active", datatype := "bool" }
      Option.none = .ok (⟨[("active", .str "")]⟩, .bool true) :=
  ⟨rfl, rfl, rfl, rfl⟩

/-- **C7** (amended): `to_bool` does implement the claimed permissive
table — trimmed, lower-cased members of the truthy set give `true`, of
the falsy set give `false`, and any other string its truthiness — but at
request time a parameter declared `bool` is converted by Falcon's
`get_param_as_bool` (strict `TRUE_STRINGS`/`FALSE_STRINGS`, blank counts
as true), not by `to_bool`; `to_bool` is only used through `TRANSFORMS`
(list-element transforms and default conversion). -/
theorem to_bool_table_and_request_time_dispatch :
    (∀ s, strMem (pyLower (pyStrip s)) truthyStrings = true →
      to_bool (.str s) = true) ∧
    (∀ s, strMem (pyLower (pyStrip s)) falsyStrings = true →
      to_bool (.str s) = false) ∧
    (∀ s, strMem (pyLower (pyStrip s)) truthyStrings = false →
      strMem (pyLower (pyStrip s)) falsyStrings = false →
      to_bool (.str s) = pyTruthy (.str s)) ∧
    (∀ params p s, p.datatype = "bool" → p.default = .none →
      lookupV params p.name = some (.str s) →
      convert ⟨params⟩ p Option.none =
        (falcon_get_param_as_bool params p.name .none (pyTruthy p.required)).map
          (fun v => (⟨params⟩, v))) := by
  refine ⟨?_, ?_, ?_, ?_⟩
  · intro s h
    simp [to_bool, pyStr, h]
  · intro s h
    have hnt : strMem (pyLower (pyStrip s)) truthyStrings = false := by
      simp only [strMem, falsyStrings] at h
      simp only [strMem, truthyStrings]
      rcases List.contains_iff_exists_mem_beq.mp h with ⟨a, ha, hbeq⟩
      rw [eq_of_beq hbeq]
      fin_cases ha <;> decide
    simp [to_bool, pyStr, h, hnt]
  · intro s h1 h2
    simp [to_bool, pyStr, h1, h2]
  · intro params p s hdt hdef hlook
    unfold convert
    simp only [hdt, hdef, Option.getD]
    simp [falcon_get_param, hlook, python_type, isinst, pyTruthy, as_bool]

/-- Witness for `to_bool_table_and_request_time_dispatch`, at the inputs
`" Yes "`, `"OFF"`, `"maybe"` and a request carrying `active = "t"`. -/
theorem to_bool_table_and_request_time_dispatch_witness :
    to_bool (.str " Yes ") = true ∧
    to_bool (.str "OFF") = false ∧
    to_bool (.str "maybe") = pyTruthy (.str "maybe") ∧
    convert ⟨[("active", .str "t")]⟩ { name := "active", datatype := "bool" }
        Option.none =
      (falcon_get_param_as_bool [("active", .str "t")] "active" .none false).map
        (fun v => (⟨[("active", .str "t")]⟩, v)) :=
  ⟨to_bool_table_and_request_time_dispatch.1 " Yes " (by decide),
   to_bool_table_and_request_time_dispatch.2.1 "OFF" (by decide),
   to_bool_table_and_request_time_dispatch.2.2.1 "maybe" (by decide) (by decide),
   to_bool_table_and_request_time_dispatch.2.2.2 [("active", .str "t")]
     { name := "active", datatype := "bool" } "t" rfl rfl rfl⟩

/-- **C8**: a declared parameter absent from the merged map whose default
is falsy but not `None` satisfies the required check (the default stands
in for the value) and is then skipped entirely by the resolver loop — the
default is never coerced or stored, so the parameter is omitted from the
final map. -/
theorem falsy_default_parameter_skipped (req : Req) (ops : List (String × String))
    (p : Parameter) (rest : List Parameter)
    (habsent : containsKey req.params p.name = false)
    (hfalsy : pyTruthy p.default = false)
    (hnotnone : p.default.isNone = false) :
    check_required req.params p = .ok () ∧
    processLoop req ops (p :: rest) = processLoop req ops rest := by
  have hcheck : check_required req.params p = .ok () := by
    unfold check_required
    rw [hnotnone]
    simp [hnotnone]
  refine ⟨hcheck, ?_⟩
  conv_lhs => unfold processLoop
  rw [hcheck, habsent, hfalsy]
  simp

/-- Witness for `falsy_default_parameter_skipped`: a required `count`
parameter with default `0`, absent from an empty request map, passes the
check and is skipped. -/
theorem falsy_default_parameter_skipped_witness :
    check_required []
      { name := "count", datatype := "int", required := .bool true, default := .int 0 } =
      .ok () ∧
    processLoop ⟨[]⟩ []
      [{ name := "count", datatype := "int", required := .bool true, default := .int 0 }] =
      processLoop ⟨[]⟩ [] [] :=
  falsy_default_parameter_skipped ⟨[]⟩ []
    { name := "count", datatype := "int", required := .bool true, default := .int 0 }
    [] rfl rfl rfl

/-- **C10**: `Converter.convert` first tests
`isinstance(value, python_type(datatype))`: for the datatype `object`
every value passes (everything is an instance of `object`), so the raw
value is returned unchanged and no JSON parsing runs; for a datatype
naming no Python builtin (`integer`, `number`, `boolean`, `string`,
`array`), `python_type` yields `None` and the `isinstance` test raises
`TypeError` instead of converting. -/
theorem convert_isinstance_gate (params : Dict) (p : Parameter) (v : Value)
    (t : Option String)
    (hlook : lookupV params p.name = some v)
    (hnl : ∀ xs, v ≠ Value.list xs) :
    (p.datatype = "object" → convert ⟨params⟩ p t = .ok (⟨params⟩, v)) ∧
    (python_type p.datatype = Option.none → convert ⟨params⟩ p t = .error .typeError) ∧
    (∀ w, isinst w .pobject = true) := by
  have hget : falcon_get_param params p.name .none (pyTruthy p.required) = .ok v := by
    unfold falcon_get_param
    rw [hlook]
    cases v with
    | list xs => exact absurd rfl (hnl xs)
    | none => rfl
    | bool b => rfl
    | int n => rfl
    | str s => rfl
    | dict xs => rfl
  refine ⟨?_, ?_, fun w => rfl⟩
  · intro hdt
    unfold convert
    rw [hdt]
    simp [hget, python_type, isinst]
  · intro hdt
    unfold convert
    rw [hdt]
    simp [hget]

/-- Witness for `convert_isinstance_gate`: a raw string under an
`object`-declared parameter is returned unchanged, while an
`integer`-declared parameter raises `TypeError`. -/
theorem convert_isinstance_gate_witness :
    convert ⟨[("cfg", .str "x")]⟩ { name := "cfg", datatype := "object" }
      Option.none = .ok (⟨[("cfg", .str "x")]⟩, .str "x") ∧
    convert ⟨[("n", .str "5")]⟩ { name := "n", datatype := "integer" }
      Option.none = .error .typeError ∧
    isinst (.dict []) .pobject = true :=
  ⟨(convert_isinstance_gate [("cfg", .str "x")]
      { name := "cfg", datatype := "object" } (.str "x") Option.none rfl
      (fun _ h => Value.noConfusion h)).1 rfl,
   (convert_isinstance_gate [("n", .str "5")]
      { name := "n", datatype := "integer" } (.str "5") Option.none rfl
      (fun _ h => Value.noConfusion h)).2.1 rfl,
   (convert_isinstance_gate [("n", .str "5")]
      { name := "n", datatype := "integer" } (.str "5") Option.none rfl
      (fun _ h => Value.noConfusion h)).2.2 (.dict [])⟩

/-- **C9**: `_parse_operators` splits each `"__"`-bearing key at the
*first* `"__"` and records whatever follows as the operator — no
validation against a recognized operator set — overwriting any existing
value under the base name; and when at least one operator is found,
`process` stores the operators dict inside the request parameter map
itself under the key `"operators"`. -/
theorem parse_operators_split_overwrite_store (n rest : String) (v w : Value)
    (hdd : occursIn ['_', '_'] (n.data ++ ['_']) = false)
    (hrest : rest ≠ "")
    (hops : n ≠ "operators") :
    pypartition (n ++ "__" ++ rest) = (n, rest) ∧
    parse_operators ⟨[(n, w), (n ++ "__" ++ rest, v)]⟩ = ([(n, rest)], ⟨[(n, v)]⟩) ∧
    process ⟨[(n, w), (n ++ "__" ++ rest, v)]⟩ [] =
      .ok ⟨[(n, v), ("operators", .dict [(n, .str rest)])]⟩ := by
  have hdata : (n ++ "__" ++ rest).data = n.data ++ '_' :: '_' :: rest.data := by
    show (n.data ++ ('_' :: '_' :: [])) ++ rest.data = n.data ++ '_' :: '_' :: rest.data
    simp
  have h1 : pypartition (n ++ "__" ++ rest) = (n, rest) := pypartition_append n rest hdd
  have h0 : pypartition n = (n, "") := pypartition_noDD n hdd
  have hkeyne : (n == n ++ "__" ++ rest) = false := by
    apply beq_eq_false_iff_ne.mpr
    intro h
    have hlen := congrArg (fun s => s.data.length) h
    simp only [hdata] at hlen
    simp at hlen
  have hopsb : (n == "operators") = false := beq_eq_false_iff_ne.mpr hops
  have hrb : (rest != "") = true := bne_iff_ne.mpr hrest
  have h2 : parse_operators ⟨[(n, w), (n ++ "__" ++ rest, v)]⟩ =
      ([(n, rest)], ⟨[(n, v)]⟩) := by
    unfold parse_operators
    simp only [keysOf, List.map, parseOperatorsGo, h0, h1, hrb, bne_self_eq_false,
      Bool.false_eq_true, if_false, if_true, dictGet, lookupV, popKey, setKey,
      parseOperatorsGo.insertKV, hkeyne, beq_self_eq_true, Option.getD]
  refine ⟨h1, h2, ?_⟩
  unfold process
  rw [h2]
  simp only [List.isEmpty, Bool.not_false, if_true, setKey, hopsb,
    Bool.false_eq_true, if_false, processLoop, List.map]

/-- Witness for `parse_operators_split_overwrite_store`: the key
`age__custom_op` (an unrecognized operator token) overwrites the existing
`age` entry and is recorded under `"operators"`. -/
theorem parse_operators_split_overwrite_store_witness :
    pypartition ("age" ++ "__" ++ "custom_op") = ("age", "custom_op") ∧
    parse_operators ⟨[("age", .str "0"), ("age" ++ "__" ++ "custom_op", .str "1")]⟩ =
      ([("age", "custom_op")], ⟨[("age", .str "1")]⟩) ∧
    process ⟨[("age", .str "0"), ("age" ++ "__" ++ "custom_op", .str "1")]⟩ [] =
      .ok ⟨[("age", .str "1"), ("operators", .dict [("age", .str "custom_op")])]⟩ :=
  parse_operators_split_overwrite_store "age" "custom_op" (.str "1") (.str "0")
    (by decide) (by decide) (by decide)

/-- **C4**: a request key `name__op` is rewritten under the base name and
the operator recorded (`operators[name] = op`); for a declared parameter
with that base name, the stored value is `Converter.convert`'s coercion
under the declared datatype — with the datatype forced to `"list"` first
whenever the operator is `in` or `between` and the declared datatype does
not already contain `"list"`. -/
theorem operator_rewrite_and_coercion (n op : String) (v : Value) (p : Parameter)
    (req' : Req) (w : Value)
    (hdd : occursIn ['_', '_'] (n.data ++ ['_']) = false)
    (hop : op ≠ "")
    (hname : p.name = n)
    (hops : n ≠ "operators")
    (hv : v.isNone = false)
    (hconv : convert ⟨[(n, v), ("operators", .dict [(n, .str op)])]⟩
        { p with datatype :=
            (match listElemSearch (datatypeAfterOps [(n, op)] p).data with
             | some _ => "list"
             | Option.none => datatypeAfterOps [(n, op)] p) }
        (listElemSearch (datatypeAfterOps [(n, op)] p).data) = .ok (req', w)) :
    parse_operators ⟨[(n ++ "__" ++ op, v)]⟩ = ([(n, op)], ⟨[(n, v)]⟩) ∧
    ((op = "in" ∨ op = "between") → substrContains p.datatype "list" = false →
      datatypeAfterOps [(n, op)] p = "list") ∧
    process ⟨[(n ++ "__" ++ op, v)]⟩ [p] = .ok ⟨setKey req'.params n w⟩ := by
  have h1 : pypartition (n ++ "__" ++ op) = (n, op) := pypartition_append n op hdd
  have hopsb : (n == "operators") = false := beq_eq_false_iff_ne.mpr hops
  have hopb : (op != "") = true := bne_iff_ne.mpr hop
  have h2 : parse_operators ⟨[(n ++ "__" ++ op, v)]⟩ = ([(n, op)], ⟨[(n, v)]⟩) := by
    unfold parse_operators
    simp only [keysOf, List.map, parseOperatorsGo, h1, hopb, if_true, dictGet,
      lookupV, popKey, setKey, parseOperatorsGo.insertKV, beq_self_eq_true,
      Option.getD]
  have hforce : (op = "in" ∨ op = "between") → substrContains p.datatype "list" = false →
      datatypeAfterOps [(n, op)] p = "list" := by
    intro hin hsub
    unfold datatypeAfterOps
    rw [hname]
    simp only [opsGet, beq_self_eq_true, if_true, hsub, Bool.false_eq_true, if_false]
    rcases hin with h | h <;> subst h <;> simp
  refine ⟨h2, hforce, ?_⟩
  unfold process
  rw [h2]
  simp only [List.isEmpty, Bool.not_false, if_true, setKey, hopsb,
    Bool.false_eq_true, if_false, List.map]
  unfold processLoop
  have hlook2 : lookupV [(n, v), ("operators", .dict [(n, .str op)])] p.name = some v := by
    rw [hname]
    simp [lookupV]
  have hpresent : containsKey [(n, v), ("operators", .dict [(n, .str op)])] p.name = true := by
    simp [containsKey, hlook2]
  have hcheck : check_required [(n, v), ("operators", .dict [(n, .str op)])] p = .ok () := by
    unfold check_required
    by_cases hd : p.default.isNone
    · simp [hd, dictGet, hlook2, hv]
    · simp [hd]
  rw [hpresent, hcheck]
  simp only [Bool.not_true, Bool.false_and, Bool.false_eq_true, if_false]
  rcases hls : listElemSearch (datatypeAfterOps [(n, op)] p).data with _ | t
  · rw [hls] at hconv
    simp only at hconv
    rw [hconv]
    simp [processLoop, hname]
  · rw [hls] at hconv
    simp only at hconv
    rw [hconv]
    simp [processLoop, hname]

/-- Witness for `operator_rewrite_and_coercion`: `age__gt=25` resolves to
`age = 25` (coerced by the declared `int`) with `operators["age"] = "gt"`,
and `age__in=1,2` forces the `int` datatype to `"list"` before coercion. -/
theorem operator_rewrite_and_coercion_witness :
    (parse_operators ⟨[("age" ++ "__" ++ "gt", .str "25")]⟩ =
        ([("age", "gt")], ⟨[("age", .str "25")]⟩) ∧
      ((("gt" : String) = "in" ∨ ("gt" : String) = "between") →
        substrContains "int" "list" = false →
        datatypeAfterOps [("age", "gt")] { name := "age", datatype := "int" } = "list") ∧
      process ⟨[("age" ++ "__" ++ "gt", .str "25")]⟩
          [{ name := "age", datatype := "int" }] =
        .ok ⟨[("age", .int 25), ("operators", .dict [("age", .str "gt")])]⟩) ∧
    (parse_operators ⟨[("age" ++ "__" ++ "in", .str "1,2")]⟩ =
        ([("age", "in")], ⟨[("age", .str "1,2")]⟩) ∧
      ((("in" : String) = "in" ∨ ("in" : String) = "between") →
        substrContains "int" "list" = false →
        datatypeAfterOps [("age", "in")] { name := "age", datatype := "int" } = "list") ∧
      process ⟨[("age" ++ "__" ++ "in", .str "1,2")]⟩
          [{ name := "age", datatype := "int" }] =
        .ok ⟨[("age", .list [.list [.str "1"], .list [.str "2"]]),
          ("operators", .dict [("age", .str "in")])]⟩) :=
  ⟨operator_rewrite_and_coercion "age" "gt" (.str "25")
      { name := "age", datatype := "int" }
      ⟨[("age", .str "25"), ("operators", .dict [("age", .str "gt")])]⟩ (.int 25)
      (by decide) (by decide) rfl (by decide) rfl rfl,
   operator_rewrite_and_coercion "age" "in" (.str "1,2")
      { name := "age", datatype := "int" }
      ⟨[("age", .list [.str "1", .str "2"]), ("operators", .dict [("age", .str "in")])]⟩
      (.list [.list [.str "1"], .list [.str "2"]])
      (by decide) (by decide) rfl (by decide) rfl rfl⟩

end Reliqua
